import Mathlib

/-
Shallow embedding of `src/apps.py` (AI Vision Assistant).

The program is a single-page app: the user uploads an image, picks a
category (General / Medical / Product) and asks a question; the app
POSTs the raw image bytes to a Hugging Face inference endpoint
(`analyze_image`), templates the result together with the question into
a prompt (`get_medical_response` / `get_product_response` /
`get_general_response`), sends the prompt to a chat model, and displays
the answer plus a category-specific disclaimer.

Network effects are modelled by oracles: the tag-extraction call is an
explicit `RequestOutcome` (a raised transport exception, or an HTTP
response together with the result of decoding its body as JSON), and
the chat-model call is a function `String → Except String String`
(answer text, or a raised exception's message).  Python's dynamically
typed values are modelled by `PyVal`; a Python exception is an
`Except.error` carrying the message text.  The Streamlit UI is modelled
as the list of display events the script emits.
-/

/-- A dynamically typed Python value, as produced by `response.json()`
and passed around by the script.  Numeric literals keep their display
text (floating point is abstracted to the literal). -/
inductive PyVal where
  | str (s : String)
  | num (lit : String)
  | bool (b : Bool)
  | null
  | list (xs : List PyVal)
  | dict (kvs : List (String × PyVal))

mutual

/-- Python `repr` of a value (as used by `str` on containers). -/
def pyRepr : PyVal → String
  | .str s => "\x27" ++ s ++ "\x27"
  | .num lit => lit
  | .bool b => if b then "True" else "False"
  | .null => "None"
  | .list xs => "[" ++ pyReprList xs ++ "]"
  | .dict kvs => "\x7b" ++ pyReprDict kvs ++ "\x7d"

/-- Comma-separated `repr`s of the elements of a Python list. -/
def pyReprList : List PyVal → String
  | [] => ""
  | [x] => pyRepr x
  | x :: y :: xs => pyRepr x ++ ", " ++ pyReprList (y :: xs)

/-- Comma-separated `key: value` pairs of a Python dict. -/
def pyReprDict : List (String × PyVal) → String
  | [] => ""
  | [(k, v)] => "\x27" ++ k ++ "\x27: " ++ pyRepr v
  | (k, v) :: y :: xs => "\x27" ++ k ++ "\x27: " ++ pyRepr v ++ ", " ++ pyReprDict (y :: xs)

end

/-- Python `str(v)`: a string is returned as itself, every other value
by its `repr`.  This is what `str(analysis)` and template substitution
(`{tags}`, `{analysis}`, `{query}`) apply to the passed value. -/
def pyStr : PyVal → String
  | .str s => s
  | v => pyRepr v

/-- Python subscript `v[k]` with a string key: succeeds only on a dict
containing the key, otherwise raises (TypeError / KeyError), modelled
as `Except.error` with the message. -/
def pyIndex (v : PyVal) (k : String) : Except String PyVal :=
  match v with
  | .dict kvs =>
    match kvs.lookup k with
    | some x => .ok x
    | none => .error ("KeyError: " ++ k)
  | .str _ => .error "TypeError: string indices must be integers"
  | _ => .error "TypeError: object is not subscriptable"

/-- The list comprehension `[item["label"] for item in raw_tags]`:
evaluates `item["label"]` left to right, raising at the first failing
element. -/
def getLabels : List PyVal → Except String (List PyVal)
  | [] => .ok []
  | item :: rest =>
    match pyIndex item "label" with
    | .error e => .error e
    | .ok v => (getLabels rest).map (fun vs => v :: vs)

/-- Python `str.join` argument check: every item must be a `str`,
otherwise `join` raises a TypeError. -/
def asStrs : List PyVal → Except String (List String)
  | [] => .ok []
  | .str s :: rest => (asStrs rest).map (fun ss => s :: ss)
  | _ :: _ => .error "TypeError: sequence item: expected str instance"

/-- `", ".join([item["label"] for item in raw_tags])` (line 125):
extract every element's `"label"` value and join them with `", "`;
raises if an element is not a dict with that key or a label is not a
string. -/
def joinLabels (raw_tags : List PyVal) : Except String String :=
  (getLabels raw_tags).bind (fun vs => (asStrs vs).map (String.intercalate ", "))

/-- The configuration read from `st.secrets` at startup. -/
structure Config where
  HF_API_URL : String
  HF_TOKEN : String
  MEDICAL_MODEL : String
  GENERAL_MODEL : String
  PRODUCT_MODEL : String

/-- One outbound HTTP request as issued by `requests.post` in
`analyze_image`. -/
structure HttpRequest where
  method : String
  url : String
  authHeader : String
  body : List Nat
  timeout : Nat
  deriving DecidableEq

/-- Oracle for the tag-extraction call: either `requests.post` (or
`response.json()`) raises an exception with the given message, or an
HTTP response arrives with the given status code and the given result
of decoding its body as JSON (`Except.error` when the body is not valid
JSON, in which case `response.json()` raises). -/
inductive RequestOutcome where
  | exn (msg : String)
  | resp (status_code : Nat) (jsonBody : Except String PyVal)

/-- `analyze_image(image_bytes, model_name)` (lines 31-44): one POST of
the raw bytes to `HF_API_URL + model_name` with a bearer token header
and a 30 second timeout; on HTTP 200 the decoded JSON body, on any
other status the empty list, and on any exception (transport failure or
JSON decode failure) the string `"Analysis error: <message>"`.  Returns
the issued request together with the returned value. -/
def analyze_image (cfg : Config) (image_bytes : List Nat) (model_name : String)
    (outcome : RequestOutcome) : HttpRequest × PyVal :=
  let req : HttpRequest :=
    { method := "POST"
      url := cfg.HF_API_URL ++ model_name
      authHeader := "Bearer " ++ cfg.HF_TOKEN
      body := image_bytes
      timeout := 30 }
  match outcome with
  | .exn msg => (req, .str ("Analysis error: " ++ msg))
  | .resp status_code jsonBody =>
    if status_code = 200 then
      match jsonBody with
      | .ok v => (req, v)
      | .error msg => (req, .str ("Analysis error: " ++ msg))
    else (req, .list [])

/-- The medical prompt template (lines 48-59), with `{tags}` and
`{query}` substituted. -/
def medical_template (tags query : String) : String :=
  "\n    As a medical assistant, analyze these image tags: " ++ tags ++
  "\n    For this question: " ++ query ++
  "\n\n    Provide:\n    1. 3 possible conditions matching these symptoms\n    2. Recommended diagnostic tests\n    3. Urgency level (Emergency/Urgent/Routine)\n    4. Clear disclaimer\n    \n    Format: Concise bullet points in plain text\n    "

/-- The product prompt template (lines 67-78), with `{analysis}` and
`{query}` substituted. -/
def product_template (analysis query : String) : String :=
  "\n    Analyze product features: " ++ analysis ++
  "\n    For query: " ++ query ++
  "\n\n    Provide:\n    1. Product identification\n    2. Price estimate range (USD)\n    3. 3 fictional purchase options\n    4. Alternative suggestions\n    \n    Format: Simple text with line breaks\n    "

/-- The general prompt template (lines 86-96), with `{analysis}` and
`{query}` substituted. -/
def general_template (analysis query : String) : String :=
  "\n    Analyze image description: " ++ analysis ++
  "\n    For question: " ++ query ++
  "\n\n    Provide:\n    1. Direct answer\n    2. 3 relevant facts\n    3. Related information\n    \n    Format: Short paragraphs in plain text\n    "

/-- `get_medical_response(tags, query)` (lines 46-63): format the
medical template with the (stringified) tags and the query and invoke
the chat model `gen` on the resulting prompt.  Returns the prompt sent
together with the model call's outcome. -/
def get_medical_response (gen : String → Except String String) (tags : PyVal)
    (query : String) : String × Except String String :=
  let prompt := medical_template (pyStr tags) query
  (prompt, gen prompt)

/-- `get_product_response(analysis, query)` (lines 65-82): the analysis
argument is already a string (`str(analysis)` at the call site). -/
def get_product_response (gen : String → Except String String) (analysis : String)
    (query : String) : String × Except String String :=
  let prompt := product_template analysis query
  (prompt, gen prompt)

/-- `get_general_response(analysis, query)` (lines 84-100). -/
def get_general_response (gen : String → Except String String) (analysis : String)
    (query : String) : String × Except String String :=
  let prompt := general_template analysis query
  (prompt, gen prompt)

/-- The analysis category selected in the UI (line 108). -/
inductive Category where
  | general
  | medical
  | product
  deriving DecidableEq

/-- The model identifier the orchestrator selects for each category. -/
def modelFor : Category → Config → String
  | .medical, cfg => cfg.MEDICAL_MODEL
  | .product, cfg => cfg.PRODUCT_MODEL
  | .general, cfg => cfg.GENERAL_MODEL

/-- The disclaimer assigned on line 127. -/
def medical_disclaimer : String :=
  "⚠️ This is not medical advice - Consult a doctor for diagnosis"

/-- The disclaimer assigned on line 132. -/
def product_disclaimer : String :=
  "ℹ️ Price estimates are approximate"

/-- The disclaimer as a function of the category alone (lines 127, 132,
137): Medical and Product get their static texts, General the empty
string. -/
def disclaimerFor : Category → String
  | .medical => medical_disclaimer
  | .product => product_disclaimer
  | .general => ""

/-- A Streamlit display event emitted while handling one submission:
the image echo (line 118), the results header (line 139), the response
text (line 140), the warning-styled disclaimer (line 143), and the
top-level error message (line 146). -/
inductive UIEvent where
  | image
  | resultsHeader
  | write (response : String)
  | warning (disclaimer : String)
  | errorMsg (msg : String)
  deriving DecidableEq

/-- The observable outcome of one submission: the HTTP requests issued
to the tag-extraction endpoint, the prompts sent to the chat model, and
the UI events displayed, in order. -/
structure SubmissionResult where
  requests : List HttpRequest
  genCalls : List String
  events : List UIEvent

/-- Lines 139-143: show the results header and the response, then the
disclaimer if it is truthy (non-empty). -/
def display_results (response disclaimer : String) : List UIEvent :=
  [.resultsHeader, .write response] ++
    (if disclaimer = "" then [] else [.warning disclaimer])

/-- Line 125: `", ".join([item["label"] for item in raw_tags]) if
isinstance(raw_tags, list) else raw_tags` — the join may raise
(`Except.error`); a non-list value is kept as it is. -/
def medical_tags (raw_tags : PyVal) : Except String PyVal :=
  match raw_tags with
  | .list xs => (joinLabels xs).map PyVal.str
  | v => .ok v

/-- The body of the `try` block (lines 121-143) together with the
top-level `except` (lines 145-146), for one category: run the category
branch; any exception raised inside it (by the label join or by the
chat-model call) is caught once and shown as
`"Analysis failed: <message>"`, with no results and no disclaimer. -/
def submit (cfg : Config) (category : Category) (image_bytes : List Nat)
    (user_query : String) (tagOutcome : RequestOutcome)
    (gen : String → Except String String) : SubmissionResult :=
  match category with
  | .medical =>
    let ra := analyze_image cfg image_bytes cfg.MEDICAL_MODEL tagOutcome
    match medical_tags ra.2 with
    | .error e => ⟨[ra.1], [], [.image, .errorMsg ("Analysis failed: " ++ e)]⟩
    | .ok tags =>
      let pr := get_medical_response gen tags user_query
      match pr.2 with
      | .error e => ⟨[ra.1], [pr.1], [.image, .errorMsg ("Analysis failed: " ++ e)]⟩
      | .ok response =>
        ⟨[ra.1], [pr.1], .image :: display_results response medical_disclaimer⟩
  | .product =>
    let ra := analyze_image cfg image_bytes cfg.PRODUCT_MODEL tagOutcome
    let pr := get_product_response gen (pyStr ra.2) user_query
    match pr.2 with
    | .error e => ⟨[ra.1], [pr.1], [.image, .errorMsg ("Analysis failed: " ++ e)]⟩
    | .ok response =>
      ⟨[ra.1], [pr.1], .image :: display_results response product_disclaimer⟩
  | .general =>
    let ra := analyze_image cfg image_bytes cfg.GENERAL_MODEL tagOutcome
    let pr := get_general_response gen (pyStr ra.2) user_query
    match pr.2 with
    | .error e => ⟨[ra.1], [pr.1], [.image, .errorMsg ("Analysis failed: " ++ e)]⟩
    | .ok response =>
      ⟨[ra.1], [pr.1], .image :: display_results response ""⟩

/-- The whole submission handler (lines 116-146): `if uploaded_file and
user_query:` — a missing upload or an empty query (falsy string) does
nothing at all; otherwise echo the image and run the category branch
under the top-level exception handler. -/
def runSubmission (cfg : Config) (category : Category)
    (uploaded_file : Option (List Nat)) (user_query : String)
    (tagOutcome : RequestOutcome)
    (gen : String → Except String String) : SubmissionResult :=
  match uploaded_file with
  | none => ⟨[], [], []⟩
  | some image_bytes =>
    if user_query = "" then ⟨[], [], []⟩
    else submit cfg category image_bytes user_query tagOutcome gen

/-- `pat` occurs verbatim as a substring of `s`. -/
def ContainsStr (s pat : String) : Prop := ∃ a b, a ++ (pat ++ b) = s

/-- The Prompt Composer as a function of the category: the template
selected on lines 48, 67 and 86 applied to the (already stringified)
analysis text and the user query. -/
def composeFor : Category → String → String → String
  | .medical, analysis, query => medical_template analysis query
  | .product, analysis, query => product_template analysis query
  | .general, analysis, query => general_template analysis query

/-- Whether a value is a Python dict containing the key `"label"` —
exactly the values on which `item["label"]` does not raise. -/
def hasLabelKey : PyVal → Bool
  | .dict kvs => (kvs.lookup "label").isSome
  | _ => false

/-- The Tag Extractor result from the claim:
`[{"label":"rash","score":0.9},{"label":"erythema","score":0.7}]`. -/
def rash_tags : PyVal :=
  .list [.dict [("label", .str "rash"), ("score", .num "0.9")],
         .dict [("label", .str "erythema"), ("score", .num "0.7")]]

/-- A sample configuration used for concrete instantiations. -/
def cfg0 : Config :=
  { HF_API_URL := "https://api-inference.huggingface.co/models/"
    HF_TOKEN := "hf-demo-token"
    MEDICAL_MODEL := "medical-clip"
    GENERAL_MODEL := "general-vit"
    PRODUCT_MODEL := "product-detr" }

/-- A string built with something in the first substitution slot
contains that something. -/
theorem containsStr_slot1 (p m s a q : String) :
    ContainsStr ((((p ++ a) ++ m) ++ q) ++ s) a :=
  ⟨p, m ++ (q ++ s), by simp [String.append_assoc]⟩

/-- A string built with something in the second substitution slot
contains that something. -/
theorem containsStr_slot2 (p m s a q : String) :
    ContainsStr ((((p ++ a) ++ m) ++ q) ++ s) q :=
  ⟨(p ++ a) ++ m, s, by simp [String.append_assoc]⟩

/-- When every element of the list is a dict carrying the given string
under `"label"`, the comprehension collects exactly those values. -/
theorem getLabels_of_forall2 (items : List PyVal) (labels : List String)
    (h : List.Forall₂ (fun item l => pyIndex item "label" = Except.ok (PyVal.str l))
      items labels) :
    getLabels items = Except.ok (labels.map PyVal.str) := by
  induction h with
  | nil => rfl
  | cons hd _ ih =>
    simp only [getLabels, hd, ih, Except.map, List.map]

/-- `asStrs` succeeds on a list of string values and returns the
underlying strings. -/
theorem asStrs_map_str (labels : List String) :
    asStrs (labels.map PyVal.str) = Except.ok labels := by
  induction labels with
  | nil => rfl
  | cons s rest ih => simp only [List.map, asStrs, ih, Except.map]

/-- `joinLabels` on a list of `label`-carrying dicts is the comma join
of the labels in list order. -/
theorem joinLabels_of_forall2 (items : List PyVal) (labels : List String)
    (h : List.Forall₂ (fun item l => pyIndex item "label" = Except.ok (PyVal.str l))
      items labels) :
    joinLabels items = Except.ok (String.intercalate ", " labels) := by
  simp only [joinLabels, getLabels_of_forall2 items labels h, Except.bind,
    asStrs_map_str, Except.map]

/-- On a value that is not a dict with a `"label"` key, `item["label"]`
raises. -/
theorem pyIndex_error_of_no_label (item : PyVal) (h : hasLabelKey item = false) :
    ∃ e, pyIndex item "label" = Except.error e := by
  cases item with
  | dict kvs =>
    cases hl : kvs.lookup "label" with
    | none =>
      refine ⟨"KeyError: " ++ "label", ?_⟩
      simp [pyIndex, hl]
    | some x => simp [hasLabelKey, hl] at h
  | str s => exact ⟨_, rfl⟩
  | num lit => exact ⟨_, rfl⟩
  | bool b => exact ⟨_, rfl⟩
  | null => exact ⟨_, rfl⟩
  | list xs => exact ⟨_, rfl⟩

/-- The comprehension raises as soon as the list contains an element
without a `"label"` key. -/
theorem getLabels_error_of_mem (xs : List PyVal) (item : PyVal) (hmem : item ∈ xs)
    (hbad : hasLabelKey item = false) : ∃ e, getLabels xs = Except.error e := by
  induction xs with
  | nil => cases hmem
  | cons y ys ih =>
    cases hy : pyIndex y "label" with
    | error e => exact ⟨e, by simp [getLabels, hy]⟩
    | ok v =>
      rcases List.mem_cons.mp hmem with h | h
      · subst h
        rcases pyIndex_error_of_no_label item hbad with ⟨e, he⟩
        rw [hy] at he
        simp at he
      · rcases ih h with ⟨e, hE⟩
        exact ⟨e, by simp [getLabels, hy, hE, Except.map]⟩

/-- The whole join raises as soon as the list contains an element
without a `"label"` key. -/
theorem joinLabels_error_of_mem (xs : List PyVal) (item : PyVal) (hmem : item ∈ xs)
    (hbad : hasLabelKey item = false) : ∃ e, joinLabels xs = Except.error e := by
  rcases getLabels_error_of_mem xs item hmem hbad with ⟨e, hE⟩
  exact ⟨e, by simp [joinLabels, hE, Except.bind]⟩

/-- C1: in the Medical branch the orchestrator collapses a
sequence-of-tags result into a single comma-joined label string (labels
in list order, joined with `", "`) before composing, and on the input
`[{"label":"rash","score":0.9},{"label":"erythema","score":0.7}]` the
string passed into composition equals `"rash, erythema"`. -/
theorem C1_medical_label_join (cfg : Config) (img : List Nat) (q : String)
    (gen : String → Except String String) (hq : q ≠ "") :
    (∀ (items : List PyVal) (labels : List String),
        List.Forall₂
          (fun item l => pyIndex item "label" = Except.ok (PyVal.str l)) items labels →
        joinLabels items = Except.ok (String.intercalate ", " labels)) ∧
    (runSubmission cfg .medical (some img) q
        (.resp 200 (.ok rash_tags)) gen).genCalls
      = [medical_template "rash, erythema" q] := by
  refine ⟨joinLabels_of_forall2, ?_⟩
  have hjoin : medical_tags rash_tags = Except.ok (PyVal.str "rash, erythema") := by rfl
  rcases hg : gen (medical_template "rash, erythema" q) with e | r <;>
    simp [runSubmission, hq, submit, analyze_image, hjoin, get_medical_response,
      pyStr, hg]

/-- C1 witness: the concrete Medical run on the claim's tag list really
composes with `"rash, erythema"`. -/
theorem C1_medical_label_join_witness :
    (runSubmission cfg0 .medical (some [7]) "What is this rash?"
        (.resp 200 (.ok rash_tags)) (fun _ => Except.ok "ANSWER")).genCalls
      = [medical_template "rash, erythema" "What is this rash?"] :=
  (C1_medical_label_join cfg0 [7] "What is this rash?" (fun _ => Except.ok "ANSWER")
    (by decide)).2

/-- C2: a transport exception during the tag-extraction call is caught
inside the Tag Extractor and converted into the value
`"Analysis error: <message>"` (so it never propagates); the error string
appears verbatim in the composed prompt and the submission still invokes
the Response Generator, for every category. -/
theorem C2_transport_exception (cfg : Config) (c : Category) (img : List Nat)
    (q msg : String) (gen : String → Except String String) (hq : q ≠ "") :
    (analyze_image cfg img (modelFor c cfg) (.exn msg)).2
        = PyVal.str ("Analysis error: " ++ msg) ∧
    ∃ p, (runSubmission cfg c (some img) q (.exn msg) gen).genCalls = [p] ∧
      ContainsStr p ("Analysis error: " ++ msg) := by
  refine ⟨rfl, ?_⟩
  cases c with
  | medical =>
    refine ⟨medical_template ("Analysis error: " ++ msg) q, ?_, ?_⟩
    · rcases hg : gen (medical_template ("Analysis error: " ++ msg) q) with e | r <;>
        simp [runSubmission, hq, submit, analyze_image, medical_tags,
          get_medical_response, pyStr, hg]
    · unfold medical_template
      exact containsStr_slot1 _ _ _ _ _
  | product =>
    refine ⟨product_template ("Analysis error: " ++ msg) q, ?_, ?_⟩
    · rcases hg : gen (product_template ("Analysis error: " ++ msg) q) with e | r <;>
        simp [runSubmission, hq, submit, analyze_image,
          get_product_response, pyStr, hg]
    · unfold product_template
      exact containsStr_slot1 _ _ _ _ _
  | general =>
    refine ⟨general_template ("Analysis error: " ++ msg) q, ?_, ?_⟩
    · rcases hg : gen (general_template ("Analysis error: " ++ msg) q) with e | r <;>
        simp [runSubmission, hq, submit, analyze_image,
          get_general_response, pyStr, hg]
    · unfold general_template
      exact containsStr_slot1 _ _ _ _ _

/-- C2 witness: a concrete simulated timeout in the General category is
absorbed, shows up in the composed prompt, and the run still reaches the
generator. -/
theorem C2_transport_exception_witness :
    (analyze_image cfg0 [1] (modelFor .general cfg0)
        (.exn "HTTPSConnectionPool: Read timed out.")).2
        = PyVal.str ("Analysis error: " ++ "HTTPSConnectionPool: Read timed out.") ∧
    ∃ p, (runSubmission cfg0 .general (some [1]) "What is this?"
        (.exn "HTTPSConnectionPool: Read timed out.")
        (fun _ => Except.ok "T")).genCalls = [p] ∧
      ContainsStr p ("Analysis error: " ++ "HTTPSConnectionPool: Read timed out.") :=
  C2_transport_exception cfg0 .general [1] "What is this?"
    "HTTPSConnectionPool: Read timed out." (fun _ => Except.ok "T") (by decide)

/-- C3: any non-200 HTTP status makes the Tag Extractor return the
empty list (not an error value, no exception), and the pipeline still
reaches the Response Generator: exactly one prompt is sent, for every
category. -/
theorem C3_non200_empty (cfg : Config) (c : Category) (img : List Nat)
    (q : String) (gen : String → Except String String) (status : Nat)
    (jsonBody : Except String PyVal) (hq : q ≠ "") (hs : status ≠ 200) :
    (analyze_image cfg img (modelFor c cfg) (.resp status jsonBody)).2
        = PyVal.list [] ∧
    ∃ p, (runSubmission cfg c (some img) q (.resp status jsonBody) gen).genCalls
        = [p] := by
  have hraw : ∀ m, (analyze_image cfg img m (.resp status jsonBody)).2
      = PyVal.list [] := by
    intro m
    simp [analyze_image, hs]
  refine ⟨hraw _, ?_⟩
  cases c with
  | medical =>
    have hmt : medical_tags (PyVal.list []) = Except.ok (PyVal.str "") := by rfl
    refine ⟨medical_template "" q, ?_⟩
    rcases hg : gen (medical_template "" q) with e | r <;>
      simp [runSubmission, hq, submit, hraw, hmt, get_medical_response, pyStr, hg]
  | product =>
    have hstr : pyStr (PyVal.list []) = "[]" := by rfl
    refine ⟨product_template "[]" q, ?_⟩
    rcases hg : gen (product_template "[]" q) with e | r <;>
      simp [runSubmission, hq, submit, hraw, hstr, get_product_response, hg]
  | general =>
    have hstr : pyStr (PyVal.list []) = "[]" := by rfl
    refine ⟨general_template "[]" q, ?_⟩
    rcases hg : gen (general_template "[]" q) with e | r <;>
      simp [runSubmission, hq, submit, hraw, hstr, get_general_response, hg]

/-- C3 witness: a concrete HTTP 503 degrades to the empty tag list and
the run still sends one prompt to the generator. -/
theorem C3_non200_empty_witness :
    (analyze_image cfg0 [2] (modelFor .medical cfg0)
        (.resp 503 (.ok PyVal.null))).2 = PyVal.list [] ∧
    ∃ p, (runSubmission cfg0 .medical (some [2]) "Is this serious?"
        (.resp 503 (.ok PyVal.null)) (fun _ => Except.ok "T")).genCalls = [p] :=
  C3_non200_empty cfg0 .medical [2] "Is this serious?" (fun _ => Except.ok "T")
    503 (.ok PyVal.null) (by decide) (by decide)

/-- C4: if the Response Generator call raises, the exception is caught
once at the top level and the submission shows a single generic failure
message — no result block and no disclaimer. -/
theorem C4_generation_failure (cfg : Config) (c : Category) (img : List Nat)
    (q m : String) (o : RequestOutcome) (gen : String → Except String String)
    (hq : q ≠ "") (hgen : ∀ p, gen p = Except.error m)
    (hcalled : (runSubmission cfg c (some img) q o gen).genCalls ≠ []) :
    (runSubmission cfg c (some img) q o gen).events
      = [UIEvent.image, UIEvent.errorMsg ("Analysis failed: " ++ m)] := by
  cases c with
  | medical =>
    rcases hmt : medical_tags (analyze_image cfg img cfg.MEDICAL_MODEL o).2
      with e | tags
    · exfalso
      apply hcalled
      simp [runSubmission, hq, submit, hmt]
    · simp [runSubmission, hq, submit, hmt, get_medical_response, hgen]
  | product => simp [runSubmission, hq, submit, get_product_response, hgen]
  | general => simp [runSubmission, hq, submit, get_general_response, hgen]

/-- C4 witness: a concrete failing generator call yields exactly the
generic failure message. -/
theorem C4_generation_failure_witness :
    (runSubmission cfg0 .general (some [3]) "What is this?"
        (.resp 503 (.ok PyVal.null)) (fun _ => Except.error "rate limited")).events
      = [UIEvent.image, UIEvent.errorMsg ("Analysis failed: " ++ "rate limited")] :=
  C4_generation_failure cfg0 .general [3] "What is this?" "rate limited"
    (.resp 503 (.ok PyVal.null)) (fun _ => Except.error "rate limited")
    (by decide) (fun _ => rfl) (by decide)

/-- C5: for all three categories the composed prompt contains both the
(possibly empty) analysis text and the exact user query verbatim. -/
theorem C5_compose_contains (c : Category) (analysis query : String) :
    ContainsStr (composeFor c analysis query) analysis ∧
    ContainsStr (composeFor c analysis query) query := by
  cases c with
  | general =>
    unfold composeFor general_template
    exact ⟨containsStr_slot1 _ _ _ _ _, containsStr_slot2 _ _ _ _ _⟩
  | medical =>
    unfold composeFor medical_template
    exact ⟨containsStr_slot1 _ _ _ _ _, containsStr_slot2 _ _ _ _ _⟩
  | product =>
    unfold composeFor product_template
    exact ⟨containsStr_slot1 _ _ _ _ _, containsStr_slot2 _ _ _ _ _⟩

/-- C6: the disclaimer is a function of the category alone: Medical is
non-empty and contains "not medical advice", Product is non-empty and
contains "approximate", General is the empty string and produces no
warning event in the displayed results. -/
theorem C6_disclaimer_selection :
    (disclaimerFor Category.medical ≠ "" ∧
      ContainsStr (disclaimerFor Category.medical) "not medical advice") ∧
    (disclaimerFor Category.product ≠ "" ∧
      ContainsStr (disclaimerFor Category.product) "approximate") ∧
    disclaimerFor Category.general = "" ∧
    ∀ (response s : String),
      UIEvent.warning s ∉ display_results response (disclaimerFor Category.general) := by
  refine ⟨⟨by decide, ?_⟩, ⟨by decide, ?_⟩, rfl, ?_⟩
  · exact ⟨"⚠️ This is ", " - Consult a doctor for diagnosis", by rfl⟩
  · exact ⟨"ℹ️ Price estimates are ", "", by rfl⟩
  · intro response s h
    simp [display_results, disclaimerFor] at h

/-- C6 witness: no warning event is displayed for a concrete successful
General result. -/
theorem C6_disclaimer_selection_witness :
    UIEvent.warning "w" ∉ display_results "some answer" (disclaimerFor Category.general) :=
  C6_disclaimer_selection.2.2.2 "some answer" "w"

/-- C7 counterexample: an HTTP 200 whose body is not valid JSON makes
`response.json()` raise inside the `try`, so the Tag Extractor returns
the error-string variant `"Analysis error: <message>"` for a 200
response — contradicting the claim that a 200 response never yields the
error-string variant. -/
theorem C7_counterexample :
    (analyze_image cfg0 [0] "medical-clip"
        (.resp 200 (.error "Expecting value: line 1 column 1 (char 0)"))).2
      = PyVal.str ("Analysis error: " ++ "Expecting value: line 1 column 1 (char 0)") := by
  rfl

/-- C7 amended: on an HTTP 200 whose body decodes as JSON, the Tag
Extractor returns the decoded body as-is (the list variant when it is a
list, the opaque variant otherwise), but when decoding the 200 body
raises, the exception is caught and the error-string variant
`"Analysis error: <message>"` is returned. -/
theorem C7_success_body (cfg : Config) (img : List Nat) (model : String)
    (v : PyVal) (m : String) :
    (analyze_image cfg img model (.resp 200 (.ok v))).2 = v ∧
    (analyze_image cfg img model (.resp 200 (.error m))).2
      = PyVal.str ("Analysis error: " ++ m) :=
  ⟨rfl, rfl⟩

/-- C8: a missing upload or an empty query makes the submission handler
do nothing at all: no HTTP request, no generator call, no UI event. -/
theorem C8_incomplete_input_noop (cfg : Config) (c : Category)
    (uploaded : Option (List Nat)) (q : String) (o : RequestOutcome)
    (gen : String → Except String String)
    (h : uploaded = none ∨ q = "") :
    runSubmission cfg c uploaded q o gen = ⟨[], [], []⟩ := by
  rcases h with h | h
  · subst h
    rfl
  · subst h
    cases uploaded with
    | none => rfl
    | some img => simp [runSubmission]

/-- C8 witness: a concrete submission without an uploaded image is a
complete no-op. -/
theorem C8_incomplete_input_noop_witness :
    runSubmission cfg0 Category.general none "What is this?" (.exn "t")
      (fun _ => Except.ok "T") = ⟨[], [], []⟩ :=
  C8_incomplete_input_noop cfg0 Category.general none "What is this?" (.exn "t")
    (fun _ => Except.ok "T") (Or.inl rfl)

/-- C9: every tag-extraction request is a single POST to the
concatenation of the configured base URL and the category-selected
model identifier, with an `Authorization: Bearer <token>` header, the
raw image bytes as body and a fixed 30 second timeout. -/
theorem C9_request_shape (cfg : Config) (c : Category) (img : List Nat)
    (q : String) (o : RequestOutcome) (gen : String → Except String String)
    (hq : q ≠ "") :
    (runSubmission cfg c (some img) q o gen).requests
      = [{ method := "POST"
           url := cfg.HF_API_URL ++ modelFor c cfg
           authHeader := "Bearer " ++ cfg.HF_TOKEN
           body := img
           timeout := 30 }] := by
  have hreq : ∀ m, (analyze_image cfg img m o).1
      = { method := "POST", url := cfg.HF_API_URL ++ m,
          authHeader := "Bearer " ++ cfg.HF_TOKEN, body := img, timeout := 30 } := by
    intro m
    rcases o with msg | ⟨s, j⟩
    · rfl
    · by_cases h : s = 200
      · subst h
        rcases j with e | v <;> rfl
      · simp [analyze_image, h]
  cases c with
  | medical =>
    rcases hmt : medical_tags (analyze_image cfg img cfg.MEDICAL_MODEL o).2
      with e | tags
    · simp [runSubmission, hq, submit, hmt, hreq, modelFor]
    · rcases hg : gen (medical_template (pyStr tags) q) with e | r <;>
        simp [runSubmission, hq, submit, hmt, get_medical_response, hg, hreq,
          modelFor]
  | product =>
    rcases hg : gen (product_template (pyStr (analyze_image cfg img
        cfg.PRODUCT_MODEL o).2) q) with e | r <;>
      simp [runSubmission, hq, submit, get_product_response, hg, hreq, modelFor]
  | general =>
    rcases hg : gen (general_template (pyStr (analyze_image cfg img
        cfg.GENERAL_MODEL o).2) q) with e | r <;>
      simp [runSubmission, hq, submit, get_general_response, hg, hreq, modelFor]

/-- C9 witness: the concrete Product request carries the POST method,
concatenated URL, bearer header, raw bytes and the 30 second timeout. -/
theorem C9_request_shape_witness :
    (runSubmission cfg0 Category.product (some [9, 9]) "How much?"
        (.resp 200 (.ok PyVal.null)) (fun _ => Except.ok "T")).requests
      = [{ method := "POST"
           url := cfg0.HF_API_URL ++ modelFor Category.product cfg0
           authHeader := "Bearer " ++ cfg0.HF_TOKEN
           body := [9, 9]
           timeout := 30 }] :=
  C9_request_shape cfg0 Category.product [9, 9] "How much?"
    (.resp 200 (.ok PyVal.null)) (fun _ => Except.ok "T") (by decide)

/-- C10 (implicit): in the Medical path, if the Tag Extractor returns a
list containing an element that is not a dict with a `"label"` key, the
comma-join raises, the whole submission ends in the top-level failure
message, and the Response Generator is never invoked. -/
theorem C10_medical_bad_tag_item (cfg : Config) (img : List Nat) (q : String)
    (gen : String → Except String String) (xs : List PyVal) (item : PyVal)
    (hq : q ≠ "") (hmem : item ∈ xs) (hbad : hasLabelKey item = false) :
    ∃ e,
      (runSubmission cfg .medical (some img) q
          (.resp 200 (.ok (.list xs))) gen).events
        = [UIEvent.image, UIEvent.errorMsg ("Analysis failed: " ++ e)] ∧
      (runSubmission cfg .medical (some img) q
          (.resp 200 (.ok (.list xs))) gen).genCalls = [] := by
  rcases joinLabels_error_of_mem xs item hmem hbad with ⟨e, hj⟩
  have hmt : medical_tags (analyze_image cfg img cfg.MEDICAL_MODEL
      (.resp 200 (.ok (.list xs)))).2 = Except.error e := by
    simp [analyze_image, medical_tags, hj, Except.map]
  refine ⟨e, ?_, ?_⟩ <;> simp [runSubmission, hq, submit, hmt]

/-- C10 witness: a concrete Medical run whose tag list contains a plain
string aborts with the generic failure message and never calls the
generator. -/
theorem C10_medical_bad_tag_item_witness :
    ∃ e,
      (runSubmission cfg0 .medical (some [4]) "Is this serious?"
          (.resp 200 (.ok (.list [PyVal.str "oops"]))) (fun _ => Except.ok "T")).events
        = [UIEvent.image, UIEvent.errorMsg ("Analysis failed: " ++ e)] ∧
      (runSubmission cfg0 .medical (some [4]) "Is this serious?"
          (.resp 200 (.ok (.list [PyVal.str "oops"]))) (fun _ => Except.ok "T")).genCalls
        = [] :=
  C10_medical_bad_tag_item cfg0 [4] "Is this serious?" (fun _ => Except.ok "T")
    [PyVal.str "oops"] (PyVal.str "oops") (by decide)
    (List.mem_singleton.mpr rfl) (by rfl)
